import Mathlib

/-!
Verification development for the libtremotesf client engine.

The definitions below are shallow embeddings of the C++ sources:
  * `src/itemlistupdater.h` — the generic list-reconciliation algorithm
    (`ItemBatchProcessor`, `ItemListUpdater::update`);
  * `src/torrent.cpp` / `src/stdutils.h` — torrent field-change tracking
    (`TorrentData::update`, `setChanged`, `qFuzzyCompare`);
  * `src/rpc.cpp` — the connection/update orchestrator
    (`Rpc::maybeFinishUpdateOrConnection`, `Rpc::onRequestFinished`,
    `Rpc::retryRequest`, torrent mutation commands);
  * `src/requestrouter.cpp` / `src/requestrouter.h` — the request transport
    (`RequestRouter::onRequestError`, `RequestsConfiguration::retryAttempts`).

C++ machine integers are modelled as `Nat`/`Int` (no overflow is relevant to
the verified properties), C++ `double` as `ℚ`, `QString`/`QByteArray` as
`String`, `std::optional` as `Option`, and `std::vector` as `List`.
-/

namespace Libtremotesf

/-! ## ItemBatchProcessor (itemlistupdater.h, lines 29–69)

`ItemBatchProcessor` keeps `firstIndex` and `lastIndex` as two `std::optional`
fields, which are always either both set or both unset (`reset` sets both,
`commit` clears both); the pair is modelled as a single `Option (Nat × Nat)`
holding `(firstIndex, lastIndex)`.  The C++ object also owns the commit action
`mAction`; here a commit is returned to the caller (as the committed
`(first, last)` range) and the caller applies the action, so that the state
stays first-order. -/

/-- `ItemBatchProcessor::nextIndex(index)`: start a batch, extend the current
batch when `index == *lastIndex`, or commit the current batch and start a new
one.  Returns the new batch state and the committed range, if this call
committed one. -/
def batchNextIndex (batch : Option (Nat × Nat)) (index : Nat) :
    Option (Nat × Nat) × Option (Nat × Nat) :=
  match batch with
  | none => (some (index, index + 1), none)
  | some (f, l) =>
    if index = l then (some (f, index + 1), none)
    else (some (index, index + 1), some (f, l))

/-- `ItemBatchProcessor::commitIfNeeded()`: commit the pending batch if there
is one.  The C++ function returns the committed size `*lastIndex - *firstIndex`;
here the whole committed range is returned (the size is its second component
minus its first). -/
def batchCommitIfNeeded (batch : Option (Nat × Nat)) :
    Option (Nat × Nat) × Option (Nat × Nat) :=
  match batch with
  | none => (none, none)
  | some (f, l) => (none, some (f, l))

/-! ## ItemListUpdater (itemlistupdater.h, lines 71–179)

`ItemListUpdater::update` walks `items` by index, looks every item up in
`newItems` (`findNewItemForItem`, modelled by the `sameIdentity` predicate and
`List.findIdx?`), batches removed and changed indices, erases each committed
removed range from `items` immediately (the removed batch's action), and
appends every item left in `newItems` at the end.  The virtual hooks
`onAboutToRemoveItems` / `onRemovedItems` / `onChangedItems` /
`onAboutToAddItems` / `onAddedItems` only notify the owner; their observable
effect — the reported ranges and counts — is recorded in the state. -/

/-- The mutable state of one `ItemListUpdater::update` run. -/
structure UpdaterState (Item NewItem : Type) where
  items : List Item
  newItems : List NewItem
  i : Nat
  max : Nat
  removedBatch : Option (Nat × Nat)
  changedBatch : Option (Nat × Nat)
  removedRanges : List (Nat × Nat)
  changedRanges : List (Nat × Nat)
deriving Repr

/-- The action of the removed-items batch processor:
`items.erase(items.begin() + first, items.begin() + last)`. -/
def eraseIndexRange {Item : Type} (items : List Item) (first last : Nat) : List Item :=
  items.take first ++ items.drop last

/-- One iteration of the `for` loop of `ItemListUpdater::update`
(itemlistupdater.h lines 92–112), including the `++i` increment.
Only called when `s.i < s.max`. -/
def updaterStep {Item NewItem : Type} [Inhabited Item] [Inhabited NewItem]
    (sameIdentity : Item → NewItem → Bool)
    (updateItem : Item → NewItem → Item × Bool)
    (s : UpdaterState Item NewItem) : UpdaterState Item NewItem :=
  let item := s.items.getD s.i default
  match s.newItems.findIdx? fun newItem => sameIdentity item newItem with
  | none =>
    -- changedBatchProcessor.commitIfNeeded(); removedBatchProcessor.nextIndex(i)
    let changedCommit := batchCommitIfNeeded s.changedBatch
    let removedNext := batchNextIndex s.removedBatch s.i
    let items :=
      match removedNext.2 with
      | some (f, l) => eraseIndexRange s.items f l
      | none => s.items
    { s with
      items := items
      i := s.i + 1
      removedBatch := removedNext.1
      changedBatch := changedCommit.1
      removedRanges := s.removedRanges ++ removedNext.2.toList
      changedRanges := s.changedRanges ++ changedCommit.2.toList }
  | some j =>
    -- removedBatchProcessor.commitIfNeeded(); on commit of size `size`:
    -- i -= size, max -= size, item = &items[i]
    let removedCommit := batchCommitIfNeeded s.removedBatch
    let afterRemove :=
      match removedCommit.2 with
      | some (f, l) =>
        (eraseIndexRange s.items f l, s.i - (l - f), s.max - (l - f),
          s.removedRanges ++ [(f, l)])
      | none => (s.items, s.i, s.max, s.removedRanges)
    let items1 := afterRemove.1
    let i1 := afterRemove.2.1
    let updated := updateItem (items1.getD i1 default) (s.newItems.getD j default)
    let changedState :=
      if updated.2 then batchNextIndex s.changedBatch i1
      else batchCommitIfNeeded s.changedBatch
    { items := items1.set i1 updated.1
      newItems := s.newItems.eraseIdx j
      i := i1 + 1
      max := afterRemove.2.2.1
      removedBatch := removedCommit.1
      changedBatch := changedState.1
      removedRanges := afterRemove.2.2.2
      changedRanges := s.changedRanges ++ changedState.2.toList }

/-- The `for (size_t i = 0, max = items.size(); i < max; ++i)` loop, with
explicit fuel.  The loop runs exactly `items.size()` iterations (each
iteration decreases `max - i` by one), so `update` below supplies
`items.length` as fuel. -/
def updaterLoop {Item NewItem : Type} [Inhabited Item] [Inhabited NewItem]
    (sameIdentity : Item → NewItem → Bool)
    (updateItem : Item → NewItem → Item × Bool) :
    Nat → UpdaterState Item NewItem → UpdaterState Item NewItem
  | 0, s => s
  | fuel + 1, s =>
    if s.i < s.max then
      updaterLoop sameIdentity updateItem fuel (updaterStep sameIdentity updateItem s)
    else s

/-- The observable result of `ItemListUpdater::update`: the final collection,
the committed removed and changed index ranges (each `(first, last)` with
`last` exclusive, in the order they were reported), and the count passed to
`onAboutToAddItems` / `onAddedItems`. -/
structure UpdaterResult (Item : Type) where
  items : List Item
  removedRanges : List (Nat × Nat)
  changedRanges : List (Nat × Nat)
  addedCount : Nat
deriving Repr

/-- `ItemListUpdater::update(items, newItems)` (itemlistupdater.h lines
78–127): the scan loop with batched removals/changes, the two trailing
`commitIfNeeded` calls, then the append of every remaining new item through
`createItemFromNewItem`. -/
def listUpdaterUpdate {Item NewItem : Type} [Inhabited Item] [Inhabited NewItem]
    (sameIdentity : Item → NewItem → Bool)
    (updateItem : Item → NewItem → Item × Bool)
    (createItemFromNewItem : NewItem → Item)
    (items : List Item) (newItems : List NewItem) : UpdaterResult Item :=
  let s0 : UpdaterState Item NewItem :=
    { items := items, newItems := newItems, i := 0, max := items.length,
      removedBatch := none, changedBatch := none,
      removedRanges := [], changedRanges := [] }
  let s1 :=
    if items.isEmpty then s0
    else
      let s := updaterLoop sameIdentity updateItem items.length s0
      -- removedBatchProcessor.commitIfNeeded()
      let removedCommit := batchCommitIfNeeded s.removedBatch
      let s :=
        match removedCommit.2 with
        | some (f, l) =>
          { s with
            items := eraseIndexRange s.items f l
            removedBatch := removedCommit.1
            removedRanges := s.removedRanges ++ [(f, l)] }
        | none => { s with removedBatch := removedCommit.1 }
      -- changedBatchProcessor.commitIfNeeded()
      let changedCommit := batchCommitIfNeeded s.changedBatch
      { s with
        changedBatch := changedCommit.1
        changedRanges := s.changedRanges ++ changedCommit.2.toList }
  if s1.newItems.isEmpty then
    { items := s1.items, removedRanges := s1.removedRanges,
      changedRanges := s1.changedRanges, addedCount := 0 }
  else
    { items := s1.items ++ s1.newItems.map createItemFromNewItem,
      removedRanges := s1.removedRanges,
      changedRanges := s1.changedRanges,
      addedCount := s1.newItems.length }

/-- A minimal item type for exercising `ItemListUpdater`: a stable identity, a
mutable version, and a flag recording whether the object was constructed by
`createItemFromNewItem` (this makes "updated in place" versus "replaced by a
newly constructed item" observable in the result). -/
structure VersionedItem where
  ident : Nat
  version : Nat
  builtFromNew : Bool
deriving DecidableEq, Repr, Inhabited

/-- Identity lookup for `VersionedItem` against a new `(identity, version)`
pair, as in `TorrentsListUpdater::findNewItemForItem`. -/
def versionedSameIdentity (item : VersionedItem) (newItem : Nat × Nat) : Bool :=
  item.ident == newItem.1

/-- Update a `VersionedItem` in place from new data, returning whether
anything changed. -/
def versionedUpdateItem (item : VersionedItem) (newItem : Nat × Nat) :
    VersionedItem × Bool :=
  ({ item with version := newItem.2 }, item.version != newItem.2)

/-- Construct a fresh `VersionedItem` from new data
(`createItemFromNewItem`). -/
def versionedCreateItem (newItem : Nat × Nat) : VersionedItem :=
  { ident := newItem.1, version := newItem.2, builtFromNew := true }

/-! ## Torrent field-change tracking (torrent.cpp, stdutils.h)

`TorrentData::update` maps JSON keys to fields and folds the by-reference
`changed` flag through `setChanged`.  The model covers a representative
subset of the mapped fields — including the ones the claims name
(`percentDone`, `recheckProgress` as the floating-point representatives,
`leftUntilDone` / `sizeWhenDone` / `status` for the finished transition,
`hashString` for the first-time-only branch); the remaining fields repeat the
same `setChanged` pattern.  C++ `double` is modelled as `ℚ`. -/

/-- A `QJsonValue`. -/
inductive JsonValue
  | null
  | str (s : String)
  | num (q : ℚ)
  | jbool (b : Bool)
deriving DecidableEq, Repr

/-- `QJsonValue::toString()` with its default `QString()`. -/
def JsonValue.toJString : JsonValue → String
  | .str s => s
  | _ => ""

/-- `QJsonValue::toDouble()` with its default `0`. -/
def JsonValue.toJDouble : JsonValue → ℚ
  | .num q => q
  | _ => 0

/-- `QJsonValue::toInt()` with its default `0`: the number when it has an
integral value. -/
def JsonValue.toJInt : JsonValue → Int
  | .num q => if q.den = 1 then q.num else 0
  | _ => 0

/-- `static_cast<long long>(value.toDouble())`: truncation toward zero. -/
def JsonValue.toLongLong : JsonValue → Int
  | .num q => if 0 ≤ q then ⌊q⌋ else ⌈q⌉
  | _ => 0

/-- `QJsonValue::toBool()` with its default `false`. -/
def JsonValue.toJBool : JsonValue → Bool
  | .jbool b => b
  | _ => false

/-- `QJsonValue::isDouble()`. -/
def JsonValue.isNum : JsonValue → Bool
  | .num _ => true
  | _ => false

/-- Qt's `qFuzzyCompare(double p1, double p2)`:
`qAbs(p1 - p2) * 1000000000000. <= qMin(qAbs(p1), qAbs(p2))`. -/
def qFuzzyCompare (p1 p2 : ℚ) : Bool :=
  decide (|p1 - p2| * 1000000000000 ≤ min |p1| |p2|)

/-- `setChanged` for non-floating-point fields (stdutils.h lines 98–105).
The C++ function mutates `value` and `changed` by reference; the model
returns the new `(value, changed)` pair. -/
def setChanged {α : Type} [DecidableEq α] (value newValue : α) (changed : Bool) :
    α × Bool :=
  if newValue ≠ value then (newValue, true) else (value, changed)

/-- `setChanged` for floating-point fields (stdutils.h lines 107–113):
the comparison is `qFuzzyCompare`, not exact equality. -/
def setChangedFuzzy (value newValue : ℚ) (changed : Bool) : ℚ × Bool :=
  if !qFuzzyCompare newValue value then (newValue, true) else (value, changed)

/-- `TorrentData::Status` (torrent.h); `Paused` is the first enumerator and
therefore the default-constructed value. -/
inductive TorrentStatus
  | paused
  | queuedForChecking
  | checking
  | queuedForDownloading
  | downloading
  | queuedForSeeding
  | seeding
deriving DecidableEq, Repr, Inhabited

/-- `statusMapper.fromJsonValue` (torrent.cpp lines 200–207 together with
`EnumMapper::fromJsonValue`, jsonutils.h lines 36–62): non-numeric or unknown
values fall back to the default-constructed enum value (`Paused`). -/
def statusFromJson (value : JsonValue) : TorrentStatus :=
  if !value.isNum then TorrentStatus.paused
  else
    match value.toJInt with
    | 0 => TorrentStatus.paused
    | 1 => TorrentStatus.queuedForChecking
    | 2 => TorrentStatus.checking
    | 3 => TorrentStatus.queuedForDownloading
    | 4 => TorrentStatus.downloading
    | 5 => TorrentStatus.queuedForSeeding
    | 6 => TorrentStatus.seeding
    | _ => TorrentStatus.paused

/-- The modelled subset of `TorrentData` (torrent.h lines 24–113), with the
C++ default member values. -/
structure TorrentData where
  id : Int := 0
  hashString : String := ""
  name : String := ""
  status : TorrentStatus := TorrentStatus.paused
  leftUntilDone : Int := 0
  sizeWhenDone : Int := 0
  percentDone : ℚ := 0
  recheckProgress : ℚ := 0
  metadataComplete : Bool := false
  downloadSpeedLimited : Bool := false
  downloadSpeedLimit : Int := 0
deriving DecidableEq, Repr, Inhabited

/-- The corresponding subset of `TorrentData::UpdateKey`
(torrent.cpp lines 26–72). -/
inductive UpdateKey
  | id
  | hashString
  | name
  | status
  | leftUntilDone
  | sizeWhenDone
  | percentDone
  | recheckProgress
  | metadataPercentComplete
  | downloadSpeedLimited
  | downloadSpeedLimit
deriving DecidableEq, Repr

/-- `TorrentData::updateProperty` (torrent.cpp lines 278–426), restricted to
the modelled keys: `id` is never written back, `hashString` is stored only on
the first update (and never feeds the `changed` flag), every other field goes
through `setChanged` — the fuzzy variant for the floating-point fields.
`changed` is the by-reference flag: it comes in with its accumulated value and
is returned, possibly set to `true`. -/
def TorrentData.updateProperty (d : TorrentData) (key : UpdateKey)
    (value : JsonValue) (changed : Bool) (firstTime : Bool) : TorrentData × Bool :=
  match key with
  | UpdateKey.id => (d, changed)
  | UpdateKey.hashString =>
    if firstTime then ({ d with hashString := value.toJString }, changed)
    else (d, changed)
  | UpdateKey.name =>
    let r := setChanged d.name value.toJString changed
    ({ d with name := r.1 }, r.2)
  | UpdateKey.status =>
    let r := setChanged d.status (statusFromJson value) changed
    ({ d with status := r.1 }, r.2)
  | UpdateKey.leftUntilDone =>
    let r := setChanged d.leftUntilDone value.toLongLong changed
    ({ d with leftUntilDone := r.1 }, r.2)
  | UpdateKey.sizeWhenDone =>
    let r := setChanged d.sizeWhenDone value.toLongLong changed
    ({ d with sizeWhenDone := r.1 }, r.2)
  | UpdateKey.percentDone =>
    let r := setChangedFuzzy d.percentDone value.toJDouble changed
    ({ d with percentDone := r.1 }, r.2)
  | UpdateKey.recheckProgress =>
    let r := setChangedFuzzy d.recheckProgress value.toJDouble changed
    ({ d with recheckProgress := r.1 }, r.2)
  | UpdateKey.metadataPercentComplete =>
    let r := setChanged d.metadataComplete (value.toJInt == 1) changed
    ({ d with metadataComplete := r.1 }, r.2)
  | UpdateKey.downloadSpeedLimited =>
    let r := setChanged d.downloadSpeedLimited value.toJBool changed
    ({ d with downloadSpeedLimited := r.1 }, r.2)
  | UpdateKey.downloadSpeedLimit =>
    let r := setChanged d.downloadSpeedLimit value.toJInt changed
    ({ d with downloadSpeedLimit := r.1 }, r.2)

/-- `TorrentData::update(object, firstTime)` (torrent.cpp lines 250–259):
fold `updateProperty` over the object's mapped keys, accumulating the
`changed` flag, and return whether anything changed.  A `QJsonObject` has
unique keys, so the key list of a real object is `Nodup`. -/
def TorrentData.update (d : TorrentData) (object : List (UpdateKey × JsonValue))
    (firstTime : Bool) : TorrentData × Bool :=
  object.foldl (fun acc kv => acc.1.updateProperty kv.1 kv.2 acc.2 firstTime) (d, false)

/-- `Torrent::isFinished` (torrent.cpp line 510): `leftUntilDone == 0`. -/
def TorrentData.isFinished (d : TorrentData) : Bool :=
  d.leftUntilDone == 0

/-- The per-key comparison the `changed` flag reflects: exact comparison for
non-floating-point fields, `qFuzzyCompare` for the floating-point fields; the
`id` key is never compared (it is the identity) and `hashString` is stored
only on the first update. -/
def fieldDiffers (d : TorrentData) (key : UpdateKey) (value : JsonValue) : Bool :=
  match key with
  | UpdateKey.id => false
  | UpdateKey.hashString => false
  | UpdateKey.name => value.toJString != d.name
  | UpdateKey.status => statusFromJson value != d.status
  | UpdateKey.leftUntilDone => value.toLongLong != d.leftUntilDone
  | UpdateKey.sizeWhenDone => value.toLongLong != d.sizeWhenDone
  | UpdateKey.percentDone => !qFuzzyCompare value.toJDouble d.percentDone
  | UpdateKey.recheckProgress => !qFuzzyCompare value.toJDouble d.recheckProgress
  | UpdateKey.metadataPercentComplete => (value.toJInt == 1) != d.metadataComplete
  | UpdateKey.downloadSpeedLimited => value.toJBool != d.downloadSpeedLimited
  | UpdateKey.downloadSpeedLimit => value.toJInt != d.downloadSpeedLimit

/-- The observable outcome of `TorrentsListUpdater::updateItem`
(rpc.cpp lines 862–892) on one matched torrent: the updated data, the
returned `changed` flag, and whether `torrentFinished` was emitted.
`Torrent::update` (torrent.cpp lines 738–748) forwards to
`mData.update(object, false)`.  (The files/peers fetch bookkeeping and the
metadata `checkSingleFileIds` accumulation only schedule secondary fetches
and are not tracked.) -/
def torrentsListUpdaterUpdateItem (torrent : TorrentData)
    (json : List (UpdateKey × JsonValue)) : TorrentData × Bool × Bool :=
  let wasFinished := torrent.isFinished
  let wasPaused := torrent.status == TorrentStatus.paused
  let oldSizeWhenDone := torrent.sizeWhenDone
  let r := torrent.update json false
  let emitted := r.2 && (!wasFinished && r.1.isFinished && !wasPaused
    && decide (oldSizeWhenDone ≤ r.1.sizeWhenDone))
  (r.1, r.2, emitted)

/-! ## Transport layer (rpc.cpp, requestrouter.cpp, requestrouter.h) -/

/-- The `QNetworkReply::NetworkError` values the transport distinguishes
(`Rpc::onRequestFinished`, rpc.cpp lines 1160–1301, and
`RequestRouter::onRequestError`, requestrouter.cpp lines 257–295); every
other error value lands in the `default` switch case and is modelled by
`otherError`. -/
inductive NetworkError
  | noError
  | contentConflictError
  | authenticationRequiredError
  | operationCanceledError
  | timeoutError
  | otherError
deriving DecidableEq, Repr

/-- `RpcError` (rpc.h lines 79–87). -/
inductive RpcError
  | noError
  | timedOut
  | connectionError
  | authenticationError
  | parseError
  | serverIsTooNew
  | serverIsTooOld
deriving DecidableEq, Repr

/-- `RpcConnectionState` (rpc.h line 76). -/
inductive ConnectionState
  | disconnected
  | connecting
  | connected
deriving DecidableEq, Repr

/-- `maxRetryAttempts` (rpc.cpp line 46): the fixed retry budget of the
`Rpc` transport. -/
def maxRetryAttempts : Nat := 3

/-- The default value of `RequestRouter::RequestsConfiguration::retryAttempts`
(requestrouter.h line 45): the configurable retry budget of the
`RequestRouter` transport. -/
def defaultRouterRetryAttempts : Nat := 2

/-- `Rpc::retryRequest` / `RequestRouter::retryRequest` (rpc.cpp lines
1116–1137, requestrouter.cpp lines 162–183): take the previous attempt's
entry in the retrying-requests registry (`none` when absent, counted as `0`),
increment it, and give up when it exceeds the budget.  Returns the registry
entry recorded for the resubmitted request, or `none` when the budget is
exhausted. -/
def retryRequest (previousAttempts : Option Nat) (budget : Nat) : Option Nat :=
  let retryAttempts := previousAttempts.getD 0 + 1
  if budget < retryAttempts then none else some retryAttempts

/-- What a request's caller finally observes. -/
inductive RequestFate
  | delivered
  | failed (error : RpcError)
deriving DecidableEq, Repr

/-- One request driven through a sequence of attempt outcomes (`true` = the
HTTP attempt succeeded, `false` = it timed out), threading the
retrying-requests registry entry exactly as `Rpc::onRequestFinished` does:
success erases the registry entry and delivers the response (rpc.cpp lines
1169–1171), a timeout goes through `retryRequest` and surfaces `TimedOut`
once the budget is exhausted (rpc.cpp lines 1280–1289).  `none` means the
attempt sequence ended without a completion. -/
def processAttempts (budget : Nat) : Option Nat → List Bool → Option RequestFate
  | _, [] => none
  | previousAttempts, ok :: rest =>
    if ok then some RequestFate.delivered
    else
      match retryRequest previousAttempts budget with
      | some attempts => processAttempts budget (some attempts) rest
      | none => some (RequestFate.failed RpcError.timedOut)

/-! ## Connection/update orchestrator (rpc.cpp) -/

/-- The orchestrator state the claims exercise: connection status, session id,
poll-cycle flags, timers and the torrent collection (`Rpc`'s data members,
rpc.h lines 208–229; the session id is the transport-owned
`mSessionId`). -/
structure RpcState where
  connectionState : ConnectionState := ConnectionState.disconnected
  rpcError : RpcError := RpcError.noError
  sessionId : String := ""
  updateDisabled : Bool := false
  updating : Bool := false
  autoReconnectEnabled : Bool := false
  serverIsLocal : Option Bool := none
  serverSettingsUpdated : Bool := false
  torrentsUpdated : Bool := false
  serverStatsUpdated : Bool := false
  updateTimerActive : Bool := false
  autoReconnectTimerActive : Bool := false
  torrents : List TorrentData := []
deriving DecidableEq, Repr

/-- `Rpc::setStatus` together with `resetStateOnConnectionStateChanged`
(rpc.cpp lines 697–772), restricted to the tracked fields: a no-op when the
status is unchanged; on entering `Disconnected` it aborts pending requests
and clears the session id, resets `updating`, the completion flags and the
locality result, stops the poll timer, and clears the torrent collection when
the previous state was `Connected`.  (Status messages and the emitted signals
are not tracked; the auto-reconnect timer is deliberately untouched here —
only `disconnect`/`setUpdateDisabled` stop it.) -/
def Rpc.setStatus (s : RpcState) (connectionState : ConnectionState)
    (error : RpcError) : RpcState :=
  if s.connectionState = connectionState ∧ s.rpcError = error then s
  else
    let oldConnectionState := s.connectionState
    let s1 := { s with connectionState := connectionState, rpcError := error }
    if oldConnectionState ≠ connectionState then
      match connectionState with
      | ConnectionState.disconnected =>
        { s1 with
          sessionId := ""
          updating := false
          serverIsLocal := none
          serverSettingsUpdated := false
          torrentsUpdated := false
          serverStatsUpdated := false
          updateTimerActive := false
          torrents := if oldConnectionState = ConnectionState.connected then [] else s1.torrents }
      | _ => s1
    else s1

/-- `Rpc::checkIfUpdateCompleted` (rpc.cpp line 1061). -/
def Rpc.checkIfUpdateCompleted (s : RpcState) : Bool :=
  s.serverSettingsUpdated && s.torrentsUpdated && s.serverStatsUpdated

/-- `Rpc::checkIfConnectionCompleted` (rpc.cpp line 1063): update completion
plus a locality-probe result. -/
def Rpc.checkIfConnectionCompleted (s : RpcState) : Bool :=
  Rpc.checkIfUpdateCompleted s && s.serverIsLocal.isSome

/-- `Rpc::maybeFinishUpdateOrConnection` (rpc.cpp lines 1065–1085).  The
early `return`s of the C++ function are modelled by returning the state
reached so far. -/
def Rpc.maybeFinishUpdateOrConnection (s : RpcState) : RpcState :=
  let connecting := s.connectionState = ConnectionState.connecting
  if !s.updating && !connecting then s
  else if s.updating && !(Rpc.checkIfUpdateCompleted s) then s
  else
    let s1 := if s.updating then { s with updating := false } else s
    if connecting && !(Rpc.checkIfConnectionCompleted s1) then s1
    else
      let s2 :=
        if connecting then Rpc.setStatus s1 ConnectionState.connected RpcError.noError
        else s1
      if !s2.updateDisabled then { s2 with updateTimerActive := true } else s2

/-- `Rpc::disconnect` (rpc.cpp lines 293–296): set the `Disconnected` status,
then stop the auto-reconnect timer. -/
def Rpc.disconnect (s : RpcState) : RpcState :=
  let s1 := Rpc.setStatus s ConnectionState.disconnected RpcError.noError
  { s1 with autoReconnectTimerActive := false }

/-- `Rpc::updateData(updateServerSettings)` (rpc.cpp lines 660–684), tracked
fields only: when not disconnected and no cycle is in flight, reset the
completion flags, stop the poll timer and mark a cycle in flight. -/
def Rpc.updateData (s : RpcState) (updateServerSettings : Bool) : RpcState :=
  if s.connectionState ≠ ConnectionState.disconnected ∧ s.updating = false then
    let s1 :=
      if updateServerSettings then { s with serverSettingsUpdated := false } else s
    { s1 with
      torrentsUpdated := false
      serverStatsUpdated := false
      updateTimerActive := false
      updating := true }
  else s

/-- `Rpc::setUpdateDisabled` (rpc.cpp lines 185–200): on an actual change,
stop the poll timer (or start a new cycle) when connected, and stop the
auto-reconnect timer when disabling. -/
def Rpc.setUpdateDisabled (s : RpcState) (disabled : Bool) : RpcState :=
  if disabled ≠ s.updateDisabled then
    let s1 := { s with updateDisabled := disabled }
    let s2 :=
      if s1.connectionState = ConnectionState.connected then
        if disabled then { s1 with updateTimerActive := false }
        else Rpc.updateData s1 true
      else s1
    if disabled then { s2 with autoReconnectTimerActive := false } else s2
  else s

/-- An HTTP reply that finished with an error, as inspected by
`Rpc::onRequestFinished` (rpc.cpp lines 1205–1300): the network error, and
the reply's session-id header (`X-Transmission-Session-Id`) when present. -/
structure ErrorReply where
  error : NetworkError
  hasSessionIdHeader : Bool
  sessionIdHeader : String
deriving DecidableEq, Repr

/-- What became of a failed request. -/
inductive RequestOutcome
  | ignored
  | resubmittedWithSessionId (sessionId : String)
  | retried (registeredAttempts : Nat)
  | terminal
deriving DecidableEq, Repr

/-- The error path of `Rpc::onRequestFinished` (rpc.cpp lines 1160–1301):
the early return when already disconnected; the conflict branch, which — when
the reply carries a session-id header different from the one the failed
request itself was sent with — stores the new session id and resubmits the
exact same request without touching the retrying-requests registry (rpc.cpp
lines 1205–1215); and the error switch: an authentication error is terminal
immediately, cancellation/timeout and every other error go through
`retryRequest`, and once the budget is exhausted a terminal error status is
set and the auto-reconnect timer is armed if enabled and not administratively
disabled (rpc.cpp lines 1275–1300).  `requestSessionId` is the session-id
header the failed request was sent with, `previousAttempts` its entry in the
retrying registry. -/
def Rpc.onRequestFinishedError (s : RpcState) (requestSessionId : String)
    (reply : ErrorReply) (previousAttempts : Option Nat) :
    RpcState × RequestOutcome :=
  if s.connectionState = ConnectionState.disconnected then (s, RequestOutcome.ignored)
  else if reply.error == NetworkError.contentConflictError && reply.hasSessionIdHeader
      && reply.sessionIdHeader != requestSessionId then
    ({ s with sessionId := reply.sessionIdHeader },
      RequestOutcome.resubmittedWithSessionId reply.sessionIdHeader)
  else
    let terminalWith := fun (error : RpcError) (startReconnect : Bool) =>
      let s1 := Rpc.setStatus s ConnectionState.disconnected error
      let s2 :=
        if startReconnect && s1.autoReconnectEnabled && !s1.updateDisabled then
          { s1 with autoReconnectTimerActive := true }
        else s1
      (s2, RequestOutcome.terminal)
    match reply.error with
    | NetworkError.authenticationRequiredError =>
      terminalWith RpcError.authenticationError false
    | NetworkError.operationCanceledError =>
      (match retryRequest previousAttempts maxRetryAttempts with
       | some attempts => (s, RequestOutcome.retried attempts)
       | none => terminalWith RpcError.timedOut true)
    | NetworkError.timeoutError =>
      (match retryRequest previousAttempts maxRetryAttempts with
       | some attempts => (s, RequestOutcome.retried attempts)
       | none => terminalWith RpcError.timedOut true)
    | _ =>
      (match retryRequest previousAttempts maxRetryAttempts with
       | some attempts => (s, RequestOutcome.retried attempts)
       | none => terminalWith RpcError.connectionError true)

/-! ## Torrent mutation commands (rpc.cpp, torrent.cpp) -/

/-- A request issued by a torrent mutation command: the RPC method and
whether its success callback calls `updateData()`.  (The request arguments
only feed the serialized body and are not tracked.) -/
structure IssuedRequest where
  method : String
  triggersUpdateOnSuccess : Bool
deriving DecidableEq, Repr

/-- `Rpc::isConnected` (rpc.cpp line 165). -/
def Rpc.isConnected (s : RpcState) : Bool :=
  s.connectionState == ConnectionState.connected

/-- `Rpc::startTorrents` (rpc.cpp lines 410–418): when connected, post
`torrent-start` whose success callback calls `updateData()`; no local state
is touched. -/
def Rpc.startTorrents (s : RpcState) : RpcState × Option IssuedRequest :=
  if Rpc.isConnected s then
    (s, some { method := "torrent-start", triggersUpdateOnSuccess := true })
  else (s, none)

/-- `Rpc::pauseTorrents` (rpc.cpp lines 430–438). -/
def Rpc.pauseTorrents (s : RpcState) : RpcState × Option IssuedRequest :=
  if Rpc.isConnected s then
    (s, some { method := "torrent-stop", triggersUpdateOnSuccess := true })
  else (s, none)

/-- `Rpc::removeTorrents` (rpc.cpp lines 440–452). -/
def Rpc.removeTorrents (s : RpcState) : RpcState × Option IssuedRequest :=
  if Rpc.isConnected s then
    (s, some { method := "torrent-remove", triggersUpdateOnSuccess := true })
  else (s, none)

/-- `Rpc::setTorrentsLocation` (rpc.cpp lines 534–546). -/
def Rpc.setTorrentsLocation (s : RpcState) : RpcState × Option IssuedRequest :=
  if Rpc.isConnected s then
    (s, some { method := "torrent-set-location", triggersUpdateOnSuccess := true })
  else (s, none)

/-- `Rpc::setTorrentProperty(id, property, value, updateIfSuccessful)`
(rpc.cpp lines 520–532): the success callback calls `updateData()` only when
`updateIfSuccessful` is set (its default is `false`, rpc.h line 176). -/
def Rpc.setTorrentProperty (s : RpcState) (updateIfSuccessful : Bool) :
    RpcState × Option IssuedRequest :=
  if Rpc.isConnected s then
    (s, some { method := "torrent-set", triggersUpdateOnSuccess := updateIfSuccessful })
  else (s, none)

/-- `Torrent::setDownloadSpeedLimited` (torrent.cpp lines 524–527): writes
the new value into the local `TorrentData` first, then issues `torrent-set`
through `Rpc::setTorrentProperty` with `updateIfSuccessful` left at its
default `false`. -/
def Torrent.setDownloadSpeedLimited (d : TorrentData) (s : RpcState)
    (limited : Bool) : TorrentData × RpcState × Option IssuedRequest :=
  let d1 := { d with downloadSpeedLimited := limited }
  let r := Rpc.setTorrentProperty s false
  (d1, r.1, r.2)

/-! ## Auxiliary notions for the reconciliation proofs -/

/-- Total number of items covered by a list of `(first, last)` ranges with
exclusive ends. -/
def rangesSize (ranges : List (Nat × Nat)) : Nat :=
  (ranges.map fun r => r.2 - r.1).sum

/-- Invariant of the `ItemListUpdater::update` scan loop: `max` tracks the
current collection size, the scan index never passes `max`, and a pending
removed batch is never empty and always ends exactly at the scan index. -/
def UpdaterInv {Item NewItem : Type} (s : UpdaterState Item NewItem) : Prop :=
  s.max = s.items.length ∧ s.i ≤ s.max ∧
    ∀ f l, s.removedBatch = some (f, l) → f < l ∧ l = s.i

/-! # Theorems -/

/-- C1: reconciliation coalesces adjacent removed indices into contiguous
ranges reported once each: reconciling existing `[A,B,C,D]` (identities
`0,1,2,3`) against incoming `[A,D]` reports exactly one removed range with
first index `1` and exclusive end `3` — not two single-item removals — and
leaves `[A,D]` with no changed range and no added item.  Moreover, with
existing `[A,B,C,D,E]` against incoming `[A,C,E]` the two separate removals
are reported as `(1,2)` then `(2,3)`: the second range's indices are valid in
the already-shrunk collection because the index counters were decremented by
the size of the committed removal before the scan continued. -/
theorem C1_removed_range_coalescing :
    listUpdaterUpdate (fun (a : Nat) (b : Nat) => a == b) (fun a _ => (a, false)) id
        [0, 1, 2, 3] [0, 3] =
      { items := [0, 3], removedRanges := [(1, 3)], changedRanges := [],
        addedCount := 0 } ∧
    listUpdaterUpdate (fun (a : Nat) (b : Nat) => a == b) (fun a _ => (a, false)) id
        [0, 1, 2, 3, 4] [0, 2, 4] =
      { items := [0, 2, 4], removedRanges := [(1, 2), (2, 3)], changedRanges := [],
        addedCount := 0 } := by
  exact ⟨rfl, rfl⟩

/-- C2: reconciling existing `[A(v1)]` against incoming `[A(v2)]` (same
identity `1`, versions `1` and `2`) updates the surviving item in place —
the result holds exactly one item, carrying the new version but still with
`builtFromNew = false`, i.e. it was never replaced by a
`createItemFromNewItem` construction — and reports no removed range and no
added item.  When the incoming version equals the existing one, nothing is
even reported as changed.  And when two existing items share the identity of
a single incoming item, the incoming item is consumed by the first match only
(it is erased from the incoming collection), so the second existing item is
removed. -/
theorem C2_identity_preserved_in_place :
    listUpdaterUpdate versionedSameIdentity versionedUpdateItem versionedCreateItem
        [{ ident := 1, version := 1, builtFromNew := false }] [(1, 2)] =
      { items := [{ ident := 1, version := 2, builtFromNew := false }],
        removedRanges := [], changedRanges := [(0, 1)], addedCount := 0 } ∧
    listUpdaterUpdate versionedSameIdentity versionedUpdateItem versionedCreateItem
        [{ ident := 1, version := 1, builtFromNew := false }] [(1, 1)] =
      { items := [{ ident := 1, version := 1, builtFromNew := false }],
        removedRanges := [], changedRanges := [], addedCount := 0 } ∧
    listUpdaterUpdate versionedSameIdentity versionedUpdateItem versionedCreateItem
        [{ ident := 1, version := 10, builtFromNew := false },
         { ident := 1, version := 20, builtFromNew := false }] [(1, 99)] =
      { items := [{ ident := 1, version := 99, builtFromNew := false }],
        removedRanges := [(1, 2)], changedRanges := [(0, 1)], addedCount := 0 } := by
  exact ⟨rfl, rfl, rfl⟩

/-- `commitIfNeeded` always leaves the batch empty. -/
theorem batchCommitIfNeeded_fst (batch : Option (Nat × Nat)) :
    (batchCommitIfNeeded batch).1 = none := by
  cases batch <;> rfl

/-- `nextIndex` on an empty batch starts a fresh one and commits nothing. -/
theorem batchNextIndex_none (i : Nat) :
    batchNextIndex none i = (some (i, i + 1), none) := rfl

/-- `nextIndex` at exactly the pending batch's end extends it and commits
nothing. -/
theorem batchNextIndex_extend (f i : Nat) :
    batchNextIndex (some (f, i)) i = (some (f, i + 1), none) := by
  simp [batchNextIndex]

/-- Appending a range adds its size. -/
theorem rangesSize_append_single (ranges : List (Nat × Nat)) (f l : Nat) :
    rangesSize (ranges ++ [(f, l)]) = rangesSize ranges + (l - f) := by
  simp [rangesSize]

/-- Erasing `[first, last)` from a list removes `last - first` elements. -/
theorem eraseIndexRange_length {Item : Type} (items : List Item) (f l : Nat)
    (hfl : f ≤ l) (hl : l ≤ items.length) :
    (eraseIndexRange items f l).length = items.length - (l - f) := by
  simp only [eraseIndexRange, List.length_append, List.length_take, List.length_drop]
  omega

/-- One scan-loop iteration preserves the loop invariant, keeps
`items.length + rangesSize removedRanges` constant (every committed removal
erases exactly as many items as the recorded range covers), and only ever
erases elements from the incoming collection. -/
theorem updaterStep_preserves {Item NewItem : Type} [Inhabited Item] [Inhabited NewItem]
    (sameIdentity : Item → NewItem → Bool) (updateItem : Item → NewItem → Item × Bool)
    (s : UpdaterState Item NewItem) (hlt : s.i < s.max) (hinv : UpdaterInv s) :
    UpdaterInv (updaterStep sameIdentity updateItem s) ∧
      (updaterStep sameIdentity updateItem s).items.length +
          rangesSize (updaterStep sameIdentity updateItem s).removedRanges =
        s.items.length + rangesSize s.removedRanges ∧
      (updaterStep sameIdentity updateItem s).newItems.Sublist s.newItems := by
  obtain ⟨hmax, hile, hbatch⟩ := hinv
  simp only [updaterStep]
  split
  · -- findNewItemForItem found nothing: the index is batched for removal
    rcases hrb : s.removedBatch with _ | ⟨f, l⟩
    · simp only [hrb, batchNextIndex_none]
      dsimp only [UpdaterInv]
      refine ⟨⟨hmax, by omega, ?_⟩, ?_, ?_⟩
      · intro g m hgm
        simp only [Option.some.injEq, Prod.mk.injEq] at hgm
        omega
      · simp
      · exact List.Sublist.refl _
    · obtain ⟨hfl, hli⟩ := hbatch f l hrb
      subst hli
      simp only [hrb, batchNextIndex_extend]
      dsimp only [UpdaterInv]
      refine ⟨⟨hmax, by omega, ?_⟩, ?_, ?_⟩
      · intro g m hgm
        simp only [Option.some.injEq, Prod.mk.injEq] at hgm
        omega
      · simp
      · exact List.Sublist.refl _
  · -- found: commit any pending removal, update the matched item in place
    rcases hrb : s.removedBatch with _ | ⟨f, l⟩
    · simp only [hrb, batchCommitIfNeeded]
      dsimp only [UpdaterInv]
      refine ⟨⟨?_, by omega, ?_⟩, ?_, ?_⟩
      · simpa using hmax
      · intro g m hgm
        simp at hgm
      · simp
      · exact List.eraseIdx_sublist _ _
    · obtain ⟨hfl, hli⟩ := hbatch f l hrb
      subst hli
      have hlen : (eraseIndexRange s.items f s.i).length = s.items.length - (s.i - f) :=
        eraseIndexRange_length _ _ _ (le_of_lt hfl) (by omega)
      simp only [hrb, batchCommitIfNeeded]
      dsimp only [UpdaterInv]
      refine ⟨⟨?_, ?_, ?_⟩, ?_, ?_⟩
      · simp only [List.length_set, hlen]
        omega
      · omega
      · intro g m hgm
        simp at hgm
      · simp only [List.length_set, hlen, rangesSize_append_single]
        omega
      · exact List.eraseIdx_sublist _ _

/-- The scan loop preserves the invariant, the item-count accounting and the
sublist relation on the incoming collection, whatever the fuel. -/
theorem updaterLoop_preserves {Item NewItem : Type} [Inhabited Item] [Inhabited NewItem]
    (sameIdentity : Item → NewItem → Bool) (updateItem : Item → NewItem → Item × Bool)
    (fuel : Nat) :
    ∀ s : UpdaterState Item NewItem, UpdaterInv s →
      UpdaterInv (updaterLoop sameIdentity updateItem fuel s) ∧
        (updaterLoop sameIdentity updateItem fuel s).items.length +
            rangesSize (updaterLoop sameIdentity updateItem fuel s).removedRanges =
          s.items.length + rangesSize s.removedRanges ∧
        (updaterLoop sameIdentity updateItem fuel s).newItems.Sublist s.newItems := by
  induction fuel with
  | zero =>
    intro s hinv
    simp only [updaterLoop]
    exact ⟨hinv, by simp, List.Sublist.refl _⟩
  | succ n ih =>
    intro s hinv
    by_cases hlt : s.i < s.max
    · have hstep := updaterStep_preserves sameIdentity updateItem s hlt hinv
      have hrest := ih _ hstep.1
      simp only [updaterLoop, if_pos hlt]
      exact ⟨hrest.1, by omega, hrest.2.2.trans hstep.2.2⟩
    · simp only [updaterLoop, if_neg hlt]
      exact ⟨hinv, by simp, List.Sublist.refl _⟩

/-- C3: in every reconciliation run the outputs partition the inputs: the
size of the existing collection, minus the total length of the reported
removed ranges, plus the reported added count, equals the size of the final
collection; and the final collection ends with exactly the items that
remained in the incoming collection after the scan — an order-preserving
subsequence of the incoming snapshot — each passed through
`createItemFromNewItem`, appended in order of first appearance. -/
theorem C3_partition_accounting {Item NewItem : Type} [Inhabited Item] [Inhabited NewItem]
    (sameIdentity : Item → NewItem → Bool) (updateItem : Item → NewItem → Item × Bool)
    (createItemFromNewItem : NewItem → Item)
    (items : List Item) (newItems : List NewItem) :
    (listUpdaterUpdate sameIdentity updateItem createItemFromNewItem items newItems).items.length +
        rangesSize (listUpdaterUpdate sameIdentity updateItem createItemFromNewItem items
          newItems).removedRanges =
      items.length +
        (listUpdaterUpdate sameIdentity updateItem createItemFromNewItem items
          newItems).addedCount ∧
    ∃ (kept : List Item) (remaining : List NewItem), remaining.Sublist newItems ∧
      (listUpdaterUpdate sameIdentity updateItem createItemFromNewItem items
        newItems).addedCount = remaining.length ∧
      (listUpdaterUpdate sameIdentity updateItem createItemFromNewItem items
        newItems).items = kept ++ remaining.map createItemFromNewItem := by
  by_cases hempty : items.isEmpty
  · -- the C++ function skips the scan entirely for an empty collection
    have hnil : items = [] := by
      cases items
      · rfl
      · simp [List.isEmpty] at hempty
    subst hnil
    by_cases hnew : newItems.isEmpty
    · have hnil2 : newItems = [] := by
        cases newItems
        · rfl
        · simp [List.isEmpty] at hnew
      subst hnil2
      refine ⟨?_, [], [], List.Sublist.refl _, ?_, ?_⟩ <;>
        simp [listUpdaterUpdate, rangesSize]
    · refine ⟨?_, [], newItems, List.Sublist.refl _, ?_, ?_⟩ <;>
        simp [listUpdaterUpdate, hnew, rangesSize]
  · -- non-empty: the scan loop runs, then the two trailing commits
    have h0 : UpdaterInv
        ({ items := items, newItems := newItems, i := 0, max := items.length,
           removedBatch := none, changedBatch := none,
           removedRanges := [], changedRanges := [] } : UpdaterState Item NewItem) := by
      refine ⟨rfl, Nat.zero_le _, ?_⟩
      intro f l h
      cases h
    obtain ⟨⟨hmaxL, hileL, hbatchL⟩, hmeasL, hsubL⟩ :=
      updaterLoop_preserves sameIdentity updateItem items.length _ h0
    have hm : (updaterLoop sameIdentity updateItem items.length
        { items := items, newItems := newItems, i := 0, max := items.length,
          removedBatch := none, changedBatch := none,
          removedRanges := [], changedRanges := [] }).items.length +
        rangesSize (updaterLoop sameIdentity updateItem items.length
          { items := items, newItems := newItems, i := 0, max := items.length,
            removedBatch := none, changedBatch := none,
            removedRanges := [], changedRanges := [] }).removedRanges =
        items.length := by
      simpa [rangesSize] using hmeasL
    simp only [listUpdaterUpdate]
    rw [if_neg hempty]
    set sL := updaterLoop sameIdentity updateItem items.length
      { items := items, newItems := newItems, i := 0, max := items.length,
        removedBatch := none, changedBatch := none,
        removedRanges := [], changedRanges := [] } with hsL
    rcases hbopt : sL.removedBatch with _ | ⟨f, l⟩
    · simp only [hbopt, batchCommitIfNeeded]
      by_cases hnew : sL.newItems.isEmpty
      · have hnil2 : sL.newItems = [] := by
          cases hvals : sL.newItems
          · rfl
          · rw [hvals] at hnew
            simp [List.isEmpty] at hnew
        refine ⟨?_, sL.items, [], List.nil_sublist _, ?_, ?_⟩ <;>
          simp [hnew, hnil2, hm]
      · refine ⟨?_, sL.items, sL.newItems, hsubL, ?_, ?_⟩ <;>
          simp [hnew]
        omega
    · obtain ⟨hfl, hfi⟩ := hbatchL f l hbopt
      have hlle : l ≤ sL.items.length := by omega
      have hlen : (eraseIndexRange sL.items f l).length = sL.items.length - (l - f) :=
        eraseIndexRange_length _ _ _ (le_of_lt hfl) hlle
      simp only [hbopt, batchCommitIfNeeded]
      by_cases hnew : sL.newItems.isEmpty
      · have hnil2 : sL.newItems = [] := by
          cases hvals : sL.newItems
          · rfl
          · rw [hvals] at hnew
            simp [List.isEmpty] at hnew
        refine ⟨?_, eraseIndexRange sL.items f l, [], List.nil_sublist _, ?_, ?_⟩ <;>
          simp [hnew, hnil2, hlen, rangesSize_append_single]
        omega
      · refine ⟨?_, eraseIndexRange sL.items f l, sL.newItems, hsubL, ?_, ?_⟩ <;>
          simp [hnew, hlen, rangesSize_append_single]
        omega

/-- C4: on a conflict response that carries a session-id header, the failed
request is resubmitted exactly once with the new token — the session id is
replaced by the header value and nothing else happens (in particular the
retrying-requests registry, and with it the request's retry counter, is
untouched) — if and only if the received token differs from the token the
failed request itself carried; when the received token equals the request's
token, no resubmission occurs. -/
theorem C4_session_token_rotation (s : RpcState) (requestSessionId : String)
    (reply : ErrorReply) (previousAttempts : Option Nat)
    (hconn : s.connectionState ≠ ConnectionState.disconnected)
    (hconflict : reply.error = NetworkError.contentConflictError)
    (hheader : reply.hasSessionIdHeader = true) :
    ((Rpc.onRequestFinishedError s requestSessionId reply previousAttempts).2 =
        RequestOutcome.resubmittedWithSessionId reply.sessionIdHeader ↔
      reply.sessionIdHeader ≠ requestSessionId) ∧
    (reply.sessionIdHeader ≠ requestSessionId →
      Rpc.onRequestFinishedError s requestSessionId reply previousAttempts =
        ({ s with sessionId := reply.sessionIdHeader },
          RequestOutcome.resubmittedWithSessionId reply.sessionIdHeader)) := by
  unfold Rpc.onRequestFinishedError
  rw [if_neg hconn]
  by_cases hsame : reply.sessionIdHeader = requestSessionId
  · have hcond : (reply.error == NetworkError.contentConflictError &&
        reply.hasSessionIdHeader && reply.sessionIdHeader != requestSessionId) = false := by
      simp [hsame]
    rw [hcond, hconflict]
    rcases hr : retryRequest previousAttempts maxRetryAttempts with _ | a <;>
      simp [hr, hsame]
  · have hcond : (reply.error == NetworkError.contentConflictError &&
        reply.hasSessionIdHeader && reply.sessionIdHeader != requestSessionId) = true := by
      simp [hconflict, hheader, hsame]
    rw [hcond]
    simp [hsame]

/-- C4 witness: a connected client holding token `"A"` that receives a
conflict reply carrying token `"B"` for a request sent with `"A"` resubmits
it with `"B"`. -/
theorem C4_session_token_rotation_witness :
    Rpc.onRequestFinishedError
        { connectionState := ConnectionState.connected, sessionId := "A" } "A"
        { error := NetworkError.contentConflictError, hasSessionIdHeader := true,
          sessionIdHeader := "B" } none =
      ({ connectionState := ConnectionState.connected, sessionId := "B" },
        RequestOutcome.resubmittedWithSessionId "B") := by
  have h := C4_session_token_rotation
    { connectionState := ConnectionState.connected, sessionId := "A" } "A"
    { error := NetworkError.contentConflictError, hasSessionIdHeader := true,
      sessionIdHeader := "B" } none (by decide) rfl rfl
  exact h.2 (by decide)

/-- Starting with no registry entry behaves like starting from a zero
count (`retryRequest` reads an absent entry as `0`). -/
theorem processAttempts_none_eq_zero (budget : Nat) (outcomes : List Bool) :
    processAttempts budget none outcomes = processAttempts budget (some 0) outcomes := by
  cases outcomes <;> rfl

/-- A request that has already consumed `k` retries and times out `n` more
times before succeeding is delivered, as long as `k + n` stays within the
budget. -/
theorem processAttempts_within_budget (budget : Nat) :
    ∀ n k, k + n ≤ budget →
      processAttempts budget (some k) (List.replicate n false ++ [true]) =
        some RequestFate.delivered := by
  intro n
  induction n with
  | zero =>
    intro k hk
    simp [processAttempts]
  | succ m ih =>
    intro k hk
    have hbudget : ¬budget < k + 1 := by omega
    simp only [List.replicate_succ, List.cons_append, processAttempts,
      retryRequest, Option.getD, if_neg hbudget]
    exact ih (k + 1) (by omega)

/-- A request that times out once more than the remaining budget allows
surfaces `TimedOut`. -/
theorem processAttempts_exhausted (budget : Nat) :
    ∀ n k, budget < k + n + 1 →
      processAttempts budget (some k) (List.replicate (n + 1) false) =
        some (RequestFate.failed RpcError.timedOut) := by
  intro n
  induction n with
  | zero =>
    intro k hk
    have hbudget : budget < k + 1 := by omega
    simp only [List.replicate_succ, List.replicate_zero, processAttempts,
      retryRequest, Option.getD, if_pos hbudget]
    simp
  | succ m ih =>
    intro k hk
    by_cases hbudget : budget < k + 1
    · simp only [List.replicate_succ, processAttempts, retryRequest,
        Option.getD, if_pos hbudget]
      simp
    · simp only [List.replicate_succ, processAttempts, retryRequest,
        Option.getD, if_neg hbudget]
      exact ih (k + 1) (by omega)

/-- C5 (amended): for any retry budget, a request that fails with a timeout
exactly `n ≤ budget` times and then succeeds is delivered to the caller as
success, while `budget + 1` timeout failures surface a terminal `TimedOut`
error.  The `Rpc` transport's budget is the fixed `maxRetryAttempts = 3`;
the `RequestRouter` transport's budget is a configuration field whose
default is `2`, not a fixed `3`. -/
theorem C5_retry_budget (budget n : Nat) (h : n ≤ budget) :
    processAttempts budget none (List.replicate n false ++ [true]) =
      some RequestFate.delivered ∧
    processAttempts budget none (List.replicate (budget + 1) false) =
      some (RequestFate.failed RpcError.timedOut) ∧
    maxRetryAttempts = 3 ∧ defaultRouterRetryAttempts = 2 := by
  refine ⟨?_, ?_, rfl, rfl⟩
  · rw [processAttempts_none_eq_zero]
    exact processAttempts_within_budget budget n 0 (by omega)
  · rw [processAttempts_none_eq_zero]
    exact processAttempts_exhausted budget budget 0 (by omega)

/-- C5 witness: with the `Rpc` transport's budget of `3`, three timeouts
followed by a success are delivered as success. -/
theorem C5_retry_budget_witness :
    processAttempts maxRetryAttempts none
        (List.replicate 3 false ++ [true]) = some RequestFate.delivered := by
  exact (C5_retry_budget maxRetryAttempts 3 (by decide)).1

/-- C5 counterexample: the retry maximum is not a fixed `3` attempts — the
`RequestRouter` transport's `retryAttempts` configuration defaults to `2`,
under which a request that times out exactly `3` times and then would
succeed is instead surfaced as a terminal `TimedOut` failure. -/
theorem C5_fixed_three_counterexample :
    defaultRouterRetryAttempts = 2 ∧
    processAttempts defaultRouterRetryAttempts none [false, false, false, true] =
      some (RequestFate.failed RpcError.timedOut) := by
  exact ⟨rfl, rfl⟩

/-- C6: a poll cycle is complete only when the settings-updated,
torrents-updated and stats-updated flags are all set: whenever at least one
flag is false, `maybeFinishUpdateOrConnection` changes nothing at all — in
particular it neither transitions `Connecting → Connected` nor starts the
poll timer.  And during `Connecting`, even with all three flags set, as long
as the locality probe has produced no result the state stays `Connecting`
and the poll timer is not started. -/
theorem C6_cycle_completion (s : RpcState)
    (h : Rpc.checkIfUpdateCompleted s = false) :
    Rpc.maybeFinishUpdateOrConnection s = s ∧
    ∀ s2 : RpcState, s2.connectionState = ConnectionState.connecting →
      s2.serverIsLocal = none →
      (Rpc.maybeFinishUpdateOrConnection s2).connectionState =
          ConnectionState.connecting ∧
      (Rpc.maybeFinishUpdateOrConnection s2).updateTimerActive =
        s2.updateTimerActive := by
  constructor
  · unfold Rpc.maybeFinishUpdateOrConnection
    by_cases hc : s.connectionState = ConnectionState.connecting <;>
      by_cases hu : s.updating <;>
        simp [hc, hu, h, Rpc.checkIfConnectionCompleted]
  · intro s2 hconn hlocal
    unfold Rpc.maybeFinishUpdateOrConnection
    by_cases hu : s2.updating
    all_goals
      simp [hconn, hu, Rpc.checkIfUpdateCompleted,
        Rpc.checkIfConnectionCompleted, hlocal]
    all_goals
      constructor <;> split <;> simp [hconn]

/-- C6 witness: with settings-updated true, torrents-updated false and
stats-updated true during `Connecting`, the orchestrator changes nothing. -/
theorem C6_cycle_completion_witness :
    Rpc.maybeFinishUpdateOrConnection
        { connectionState := ConnectionState.connecting, updating := true,
          serverSettingsUpdated := true, torrentsUpdated := false,
          serverStatsUpdated := true, serverIsLocal := some true } =
      { connectionState := ConnectionState.connecting, updating := true,
        serverSettingsUpdated := true, torrentsUpdated := false,
        serverStatsUpdated := true, serverIsLocal := some true } := by
  exact (C6_cycle_completion _ (by decide)).1

/-- C7 counterexample: a torrent property setter mutates the local model
state directly — `Torrent::setDownloadSpeedLimited(true)` on a torrent whose
`downloadSpeedLimited` attribute is `false` flips the local attribute to
`true` immediately, before any RPC response or reconciliation. -/
theorem C7_setter_mutates_locally_counterexample :
    (Torrent.setDownloadSpeedLimited { downloadSpeedLimited := false }
        { connectionState := ConnectionState.connected } true).1.downloadSpeedLimited
        = true ∧
    ({ downloadSpeedLimited := false } : TorrentData).downloadSpeedLimited = false := by
  exact ⟨rfl, rfl⟩

/-- C7 (amended): the `Rpc`-level torrent mutation commands
(start/stop/remove/move/set-property) are thin "connected → issue RPC"
wrappers — they leave the whole orchestrator state, including the torrent
collection, unchanged, issue their request exactly when connected, and their
success callback triggers a poll cycle — but the `Torrent` property setters
additionally write the new value into the local attribute field before
issuing `torrent-set`, whose success does not trigger a poll cycle. -/
theorem C7_mutation_commands (s : RpcState) (updateIfSuccessful : Bool)
    (d : TorrentData) (limited : Bool) :
    (Rpc.startTorrents s).1 = s ∧
    (Rpc.pauseTorrents s).1 = s ∧
    (Rpc.removeTorrents s).1 = s ∧
    (Rpc.setTorrentsLocation s).1 = s ∧
    (Rpc.setTorrentProperty s updateIfSuccessful).1 = s ∧
    ((Rpc.startTorrents s).2.isSome = true ↔
      s.connectionState = ConnectionState.connected) ∧
    (∀ req, (Rpc.startTorrents s).2 = some req →
      req.triggersUpdateOnSuccess = true) ∧
    (Torrent.setDownloadSpeedLimited d s limited).2.1 = s ∧
    (Torrent.setDownloadSpeedLimited d s limited).1 =
      { d with downloadSpeedLimited := limited } ∧
    (∀ req, (Torrent.setDownloadSpeedLimited d s limited).2.2 = some req →
      req.triggersUpdateOnSuccess = false) := by
  unfold Torrent.setDownloadSpeedLimited Rpc.setTorrentProperty Rpc.startTorrents
    Rpc.pauseTorrents Rpc.removeTorrents Rpc.setTorrentsLocation Rpc.isConnected
  by_cases hc : s.connectionState = ConnectionState.connected <;>
    simp [hc]

/-- C8 counterexample: an authentication error is a terminal transport error
that forces `Disconnected`, yet even with auto-reconnect enabled and updating
not administratively disabled, the auto-reconnect timer is not started — the
switch in `Rpc::onRequestFinished` arms it only for timeout and connection
errors. -/
theorem C8_auth_error_counterexample :
    (Rpc.onRequestFinishedError
        { connectionState := ConnectionState.connected,
          autoReconnectEnabled := true, updateDisabled := false } ""
        { error := NetworkError.authenticationRequiredError,
          hasSessionIdHeader := false, sessionIdHeader := "" }
        none).1.connectionState = ConnectionState.disconnected ∧
    (Rpc.onRequestFinishedError
        { connectionState := ConnectionState.connected,
          autoReconnectEnabled := true, updateDisabled := false } ""
        { error := NetworkError.authenticationRequiredError,
          hasSessionIdHeader := false, sessionIdHeader := "" }
        none).1.autoReconnectTimerActive = false := by
  exact ⟨rfl, rfl⟩

/-- C8 (amended): after a terminal timeout, cancellation or generic
connection error (one that exhausts the retry budget) — though not after an
authentication error — if auto-reconnect is enabled by configuration and
updating is not administratively disabled, the state is forced to
`Disconnected` and the single-shot auto-reconnect timer is started; the
timer is cancelled on every explicit `disconnect()` and on every
administrative disable. -/
theorem C8_auto_reconnect (s : RpcState) (requestSessionId : String)
    (reply : ErrorReply) (previousAttempts : Option Nat)
    (hconn : s.connectionState ≠ ConnectionState.disconnected)
    (herr : reply.error = NetworkError.timeoutError ∨
      reply.error = NetworkError.operationCanceledError ∨
      reply.error = NetworkError.otherError)
    (hexhausted : retryRequest previousAttempts maxRetryAttempts = none)
    (henabled : s.autoReconnectEnabled = true)
    (hactive : s.updateDisabled = false) :
    (Rpc.onRequestFinishedError s requestSessionId reply
        previousAttempts).1.connectionState = ConnectionState.disconnected ∧
    (Rpc.onRequestFinishedError s requestSessionId reply
        previousAttempts).1.autoReconnectTimerActive = true ∧
    (∀ s2 : RpcState, (Rpc.disconnect s2).autoReconnectTimerActive = false) ∧
    (∀ s2 : RpcState, s2.updateDisabled = false →
      (Rpc.setUpdateDisabled s2 true).autoReconnectTimerActive = false) := by
  have hk : (Rpc.onRequestFinishedError s requestSessionId reply
        previousAttempts).1.connectionState = ConnectionState.disconnected ∧
      (Rpc.onRequestFinishedError s requestSessionId reply
        previousAttempts).1.autoReconnectTimerActive = true := by
    unfold Rpc.onRequestFinishedError
    rw [if_neg hconn]
    have hcond : (reply.error == NetworkError.contentConflictError &&
        reply.hasSessionIdHeader &&
        reply.sessionIdHeader != requestSessionId) = false := by
      rcases herr with h | h | h <;> simp [h]
    rw [hcond]
    rcases herr with h | h | h <;>
      simp [h, hexhausted, Rpc.setStatus, hconn, henabled, hactive]
  refine ⟨hk.1, hk.2, ?_, ?_⟩
  · intro s2
    rfl
  · intro s2 h2
    unfold Rpc.setUpdateDisabled
    rw [if_pos (by simp [h2])]
    simp

/-- C8 witness: a connected client with auto-reconnect enabled whose request
times out with its retry budget already consumed is disconnected with the
auto-reconnect timer armed. -/
theorem C8_auto_reconnect_witness :
    (Rpc.onRequestFinishedError
        { connectionState := ConnectionState.connected,
          autoReconnectEnabled := true, updateDisabled := false } ""
        { error := NetworkError.timeoutError, hasSessionIdHeader := false,
          sessionIdHeader := "" }
        (some 3)).1.autoReconnectTimerActive = true := by
  exact (C8_auto_reconnect
    { connectionState := ConnectionState.connected,
      autoReconnectEnabled := true, updateDisabled := false } ""
    { error := NetworkError.timeoutError, hasSessionIdHeader := false,
      sessionIdHeader := "" }
    (some 3) (by decide) (Or.inl rfl) (by decide) rfl rfl).2.1

/-- One `updateProperty` call sets the `changed` flag exactly when the key's
field comparison reports a difference (`firstTime = false`). -/
theorem updateProperty_changed (d : TorrentData) (key : UpdateKey)
    (value : JsonValue) (changed : Bool) :
    (d.updateProperty key value changed false).2 =
      (changed || fieldDiffers d key value) := by
  cases key <;>
    simp only [TorrentData.updateProperty, fieldDiffers, setChanged,
      setChangedFuzzy, Bool.if_false_left, Bool.or_false] <;>
    (try split) <;>
    simp_all

/-- `updateProperty` on one key leaves every other key's field comparison
unchanged: distinct keys write and read distinct fields. -/
theorem updateProperty_preserves_other (d : TorrentData) (key : UpdateKey)
    (value : JsonValue) (changed : Bool) (key2 : UpdateKey) (value2 : JsonValue)
    (hne : key ≠ key2) :
    fieldDiffers (d.updateProperty key value changed false).1 key2 value2 =
      fieldDiffers d key2 value2 := by
  cases key <;> cases key2 <;>
    first
      | exact absurd rfl hne
      | (simp only [TorrentData.updateProperty, fieldDiffers] <;>
          (try split) <;> simp)

/-- The `changed` flag accumulated by `TorrentData::update`'s fold is set
exactly when it came in set or some processed key's field comparison reports
a difference (keys are unique in a `QJsonObject`). -/
theorem update_changed_iff (object : List (UpdateKey × JsonValue)) :
    ∀ (d : TorrentData) (changed : Bool), (object.map Prod.fst).Nodup →
      ((object.foldl (fun acc kv => acc.1.updateProperty kv.1 kv.2 acc.2 false)
          (d, changed)).2 = true ↔
        (changed = true ∨ ∃ kv ∈ object, fieldDiffers d kv.1 kv.2 = true)) := by
  induction object with
  | nil =>
    intro d changed _
    simp
  | cons kv rest ih =>
    intro d changed hnodup
    obtain ⟨k, v⟩ := kv
    rw [List.map_cons, List.nodup_cons] at hnodup
    have hkne : ∀ kv2 ∈ rest, k ≠ kv2.1 := by
      intro kv2 hmem he
      have hin : kv2.1 ∈ rest.map Prod.fst := List.mem_map_of_mem Prod.fst hmem
      rw [he] at hnodup
      exact hnodup.1 hin
    simp only [List.foldl_cons]
    rw [ih (d.updateProperty k v changed false).1
      (d.updateProperty k v changed false).2 hnodup.2]
    have hrest : (∃ kv2 ∈ rest,
        fieldDiffers (d.updateProperty k v changed false).1 kv2.1 kv2.2 = true) ↔
        (∃ kv2 ∈ rest, fieldDiffers d kv2.1 kv2.2 = true) := by
      constructor <;> rintro ⟨kv2, hmem, hdiff⟩ <;> refine ⟨kv2, hmem, ?_⟩
      · rwa [updateProperty_preserves_other d k v changed kv2.1 kv2.2
          (hkne kv2 hmem)] at hdiff
      · rwa [updateProperty_preserves_other d k v changed kv2.1 kv2.2
          (hkne kv2 hmem)]
    rw [hrest, updateProperty_changed, List.exists_mem_cons_iff]
    simp only [Bool.or_eq_true]
    tauto

/-- C9 counterexample: `hashString` is a mapped field, and a snapshot whose
`hashString` differs from the stored one (with `firstTime = false`, the
regular per-cycle update) yields `changed = false` — the field is stored only
on the first update and never feeds the change flag, so "returns true iff at
least one mapped field's new value differs" fails as stated. -/
theorem C9_hashstring_counterexample :
    (TorrentData.update { hashString := "a" }
        [(UpdateKey.hashString, JsonValue.str "b")] false).2 = false ∧
    (JsonValue.str "b").toJString ≠ ({ hashString := "a" } : TorrentData).hashString := by
  exact ⟨rfl, by decide⟩

/-- C9 (amended): for a snapshot with unique keys, a per-cycle update
(`firstTime = false`) returns `true` if and only if at least one mapped field
other than `id` and `hashString` (which are set only at identification or
construction time) has a new value that differs from its previous value,
where the floating-point fields are compared with `qFuzzyCompare`'s fuzzy
tolerance rather than exact equality; in particular a snapshot in which every
compared field equals its previous value yields "not changed". -/
theorem C9_field_change_tracking (d : TorrentData)
    (object : List (UpdateKey × JsonValue))
    (hnodup : (object.map Prod.fst).Nodup) :
    ((d.update object false).2 = true ↔
      ∃ kv ∈ object, fieldDiffers d kv.1 kv.2 = true) := by
  have h := update_changed_iff object d false hnodup
  simpa [TorrentData.update] using h

/-- C9 witness: a snapshot whose `percentDone` differs only within the fuzzy
tolerance and whose `name` is unchanged reports "not changed". -/
theorem C9_field_change_tracking_witness :
    ((TorrentData.update { name := "t", percentDone := 1 }
        [(UpdateKey.percentDone, JsonValue.num (1 + 1 / 10000000000000)),
         (UpdateKey.name, JsonValue.str "t")] false).2 = true ↔
      ∃ kv ∈ [(UpdateKey.percentDone, JsonValue.num (1 + 1 / 10000000000000)),
         (UpdateKey.name, JsonValue.str "t")],
        fieldDiffers { name := "t", percentDone := 1 } kv.1 kv.2 = true) := by
  exact C9_field_change_tracking { name := "t", percentDone := 1 } _ (by decide)

/-- C10: during torrent-list reconciliation, `torrentFinished` is emitted for
an existing torrent exactly when the update changed it, it was not finished
before and is finished after, its previous status was not `Paused`, and its
`sizeWhenDone` did not decrease across the update.  In particular a torrent
that becomes finished solely because its `sizeWhenDone` shrank (files
deselected) never triggers it, while the same transition with `sizeWhenDone`
intact does. -/
theorem C10_torrent_finished_condition (torrent : TorrentData)
    (json : List (UpdateKey × JsonValue)) :
    ((torrentsListUpdaterUpdateItem torrent json).2.2 = true ↔
      ((torrentsListUpdaterUpdateItem torrent json).2.1 = true ∧
        torrent.isFinished = false ∧
        (torrentsListUpdaterUpdateItem torrent json).1.isFinished = true ∧
        torrent.status ≠ TorrentStatus.paused ∧
        torrent.sizeWhenDone ≤
          (torrentsListUpdaterUpdateItem torrent json).1.sizeWhenDone)) ∧
    (torrentsListUpdaterUpdateItem
        { leftUntilDone := 5, sizeWhenDone := 10,
          status := TorrentStatus.downloading }
        [(UpdateKey.sizeWhenDone, JsonValue.num 5),
         (UpdateKey.leftUntilDone, JsonValue.num 0)]).2.2 = false ∧
    (torrentsListUpdaterUpdateItem
        { leftUntilDone := 5, sizeWhenDone := 10,
          status := TorrentStatus.downloading }
        [(UpdateKey.leftUntilDone, JsonValue.num 0)]).2.2 = true := by
  refine ⟨?_, by decide, by decide⟩
  unfold torrentsListUpdaterUpdateItem
  simp [Bool.and_eq_true, Bool.not_eq_true', beq_iff_eq, decide_eq_true_eq]
  tauto

end Libtremotesf
